import Mathlib

/-
Verification of the ZinChat connection registry, broadcast fan-out and
device-command responder.

Source files embedded here:
* `src/zinchat/device_simulator.py` — `DeviceSimulator.handle_command`
* `src/zinchat/main.py` — `websocket_endpoint` (registration, the chat
  fan-out loop, the device-reply path, disconnect removal),
  `device_sensor_broadcast` (the periodic sensor emitter), and the global
  list `connected_clients`.

Modelling conventions:
* A connection (a `WebSocket` object) is identified by a natural number;
  the global list `connected_clients` is a `List Nat`.
* Python string operations (`str.strip`, `str.lower`, `str.startswith`,
  slicing) are embedded as executable functions over the character list
  of a `String`, so that every definition evaluates inside the kernel.
* The outcome of `random.randint(0, 100)` is passed in explicitly as a
  `randVal : Nat` argument: the Python call reads the global RNG, and the
  drawn value is the only way the RNG influences the result.
* `await client.send_text(...)` either succeeds or raises
  `WebSocketDisconnect`; which of the two happens is modelled by a
  predicate `fails : Nat → Bool` on the recipient, fixed for the duration
  of one broadcast (each recipient is attempted at most once per call).
-/

/-! ## Python string primitives -/

/-- The whitespace characters stripped by `str.strip()` (restricted to the
ASCII whitespace actually occurring in chat traffic). -/
def isSpaceChar (c : Char) : Bool := c == ' ' || c == '\t' || c == '\n' || c == '\r'

/-- Strip leading and trailing whitespace from a character list, as
`str.strip()` does. -/
def trimList (l : List Char) : List Char :=
  ((l.dropWhile isSpaceChar).reverse.dropWhile isSpaceChar).reverse

/-- ASCII lowercasing of one character, as `str.lower()` does on the ASCII
range. -/
def lowerChar (c : Char) : Char :=
  if 'A' ≤ c && c ≤ 'Z' then Char.ofNat (c.toNat + 32) else c

/-- `firstMatches hay needle` is true when `needle` occurs at the start of
`hay`, as `str.startswith` checks. -/
def firstMatches : List Char → List Char → Bool
  | _, [] => true
  | [], _ :: _ => false
  | a :: as, b :: bs => a == b && firstMatches as bs

/-- `hasSub hay needle`: does `needle` occur contiguously anywhere in
`hay` (Python's `needle in hay`)? -/
def hasSub : List Char → List Char → Bool
  | [], needle => needle.isEmpty
  | a :: rest, needle => firstMatches (a :: rest) needle || hasSub rest needle

/-- `s.strip()`. -/
def pyStrip (s : String) : String := ⟨trimList s.data⟩

/-- `s.lower()`. -/
def pyLower (s : String) : String := ⟨s.data.map lowerChar⟩

/-- `s.startswith(t)`. -/
def pyStartsWith (s t : String) : Bool := firstMatches s.data t.data

/-- `s[n:]`. -/
def pyDrop (s : String) (n : Nat) : String := ⟨s.data.drop n⟩

/-- `sub in hay` for strings. -/
def strContains (hay sub : String) : Bool := hasSub hay.data sub.data

/-! ## Device simulator (`src/zinchat/device_simulator.py`) -/

namespace DeviceSimulator

/-- The normalisation performed by `handle_command` before dispatch
(`device_simulator.py` lines 46–50): strip, remove one leading
case-insensitive `/device` prefix if present, strip again, lowercase. -/
def normalize (command : String) : String :=
  let cmd := pyStrip command
  let cmd := if pyStartsWith (pyLower cmd) "/device" then pyDrop cmd 7 else cmd
  pyLower (pyStrip cmd)

/-- The dispatch switch of `handle_command` (`device_simulator.py` lines
52–63), applied to the already-normalised command text. `randVal` is the
value drawn by `random.randint(0, 100)` on the `status` branch. -/
def dispatch (cmd : String) (randVal : Nat) : String :=
  if cmd = "status" then "Current sensor reading is " ++ toString randVal ++ "."
  else if cmd = "start" then "Device has been started."
  else if cmd = "stop" then "Device has been stopped."
  else if cmd = "" then "No command provided. Try '/device status'."
  else "Unknown device command: '" ++ cmd ++ "'."

/-- `DeviceSimulator.handle_command` (`device_simulator.py` lines 30–63),
with the `random.randint(0, 100)` draw passed in as `randVal`. -/
def handle_command (command : String) (randVal : Nat) : String :=
  let cmd := pyStrip command
  let cmd := if pyStartsWith (pyLower cmd) "/device" then pyDrop cmd 7 else cmd
  let cmd := pyLower (pyStrip cmd)
  if cmd = "status" then "Current sensor reading is " ++ toString randVal ++ "."
  else if cmd = "start" then "Device has been started."
  else if cmd = "stop" then "Device has been stopped."
  else if cmd = "" then "No command provided. Try '/device status'."
  else "Unknown device command: '" ++ cmd ++ "'."

end DeviceSimulator

/-! ## Registry operations (`src/zinchat/main.py`) -/

/-- `connected_clients.append(websocket)` (`main.py` line 117). -/
def addClient (reg : List Nat) (c : Nat) : List Nat := reg ++ [c]

/-- The guarded removal idiom used on every removal path
(`main.py` lines 134–135, 137–138 and 157–158):
`if client in connected_clients: connected_clients.remove(client)`.
Python's `list.remove` deletes the first occurrence. -/
def removeClient (reg : List Nat) (c : Nat) : List Nat :=
  if c ∈ reg then reg.erase c else reg

theorem removeClient_length_le (reg : List Nat) (c : Nat) :
    (removeClient reg c).length ≤ reg.length := by
  unfold removeClient
  split
  · rename_i hmem
    rw [List.length_erase_of_mem hmem]
    omega
  · exact Nat.le_refl _

/-! ## The chat fan-out loop (`main.py` lines 126–135)

```python
for client in connected_clients:
    if client is not websocket:
        try:
            await client.send_text(broadcast_text)
        except WebSocketDisconnect:
            if client in connected_clients:
                connected_clients.remove(client)
```

Python's `for` statement iterates the *live* list by an internal index
that advances by one per iteration, reading `connected_clients[i]` while
the body may mutate the list.  `chatLoop` embeds exactly this semantics:
`lst` is the current list, `i` the iterator index, `delivered` the
connections whose send succeeded so far.  The `fuel` argument is an
embedding artefact making the recursion structural: each iteration
advances `i` by one and never lengthens the list, so `clients.length`
iterations always suffice (see `chatFanout`). -/

def chatLoop (sender : Nat) (fails : Nat → Bool) :
    Nat → List Nat → Nat → List Nat → List Nat × List Nat
  | 0, lst, _, delivered => (lst, delivered)
  | fuel + 1, lst, i, delivered =>
    if h : i < lst.length then
      if lst[i] = sender then
        chatLoop sender fails fuel lst (i + 1) delivered
      else if fails lst[i] then
        chatLoop sender fails fuel (removeClient lst lst[i]) (i + 1) delivered
      else
        chatLoop sender fails fuel lst (i + 1) (delivered ++ [lst[i]])
    else (lst, delivered)

/-- One chat broadcast from `sender`: the fan-out loop started on the live
list `clients` with iterator index `0`.  Returns the final state of
`connected_clients` and the list of connections that received the text,
in delivery order. -/
def chatFanout (sender : Nat) (fails : Nat → Bool) (clients : List Nat) :
    List Nat × List Nat :=
  chatLoop sender fails clients.length clients 0 []

/-! ## The periodic sensor emitter (`main.py` lines 141–158)

```python
for client in list(connected_clients):
    try:
        await client.send_text(message)
    except WebSocketDisconnect:
        if client in connected_clients:
            connected_clients.remove(client)
```

Here the loop iterates `list(connected_clients)` — an independent copy
taken before the first send — so removals touch only the registry, never
the iteration sequence. -/

def sensorLoop (fails : Nat → Bool) :
    List Nat → List Nat → List Nat → List Nat × List Nat
  | [], reg, delivered => (reg, delivered)
  | c :: rest, reg, delivered =>
    if fails c then sensorLoop fails rest (removeClient reg c) delivered
    else sensorLoop fails rest reg (delivered ++ [c])

/-- One wake-up of `device_sensor_broadcast`: iterate a snapshot of the
registry, delivering to every member whose send succeeds and removing the
ones whose send raises.  Returns the final registry and the delivery
list. -/
def device_sensor_broadcast (fails : Nat → Bool) (clients : List Nat) :
    List Nat × List Nat :=
  sensorLoop fails clients clients []

/-! ## One iteration of the session read loop (`main.py` lines 120–135) -/

/-- Processing of one inbound text `data` from connection `sender` while
the registry holds `clients`.  Returns the registry after the iteration
and the list of `(recipient, text)` sends performed.  Mirrors:

```python
data = await websocket.receive_text()
if data.strip().lower().startswith("/device"):
    response = DeviceSimulator.handle_command(data)
    await websocket.send_text(f"Device ➤ {response}")
else:
    broadcast_text = f"User ➤ {data}"
    for client in connected_clients: ...   # the chat fan-out loop
``` -/
def sessionStep (sender : Nat) (clients : List Nat) (fails : Nat → Bool)
    (randVal : Nat) (data : String) : List Nat × List (Nat × String) :=
  if pyStartsWith (pyLower (pyStrip data)) "/device" then
    (clients, [(sender, "Device ➤ " ++ DeviceSimulator.handle_command data randVal)])
  else
    let r := chatFanout sender fails clients
    (r.1, r.2.map fun c => (c, "User ➤ " ++ data))

/-! ## Connect/disconnect event traces (`main.py` lines 116–117, 136–138)

A session registers itself on accept (`connected_clients.append`) and the
disconnect handler removes it with the guarded-removal idiom.  `runEvents`
runs a whole trace of such events against the registry. -/

/-- A registry lifecycle event: a connection completing acceptance, or a
connection being removed (by its own disconnect handler or by a failed
send in a broadcast — both paths run the same guarded removal). -/
inductive Ev where
  | connect (id : Nat)
  | disconnect (id : Nat)
deriving DecidableEq, Repr

/-- Effect of one event on `connected_clients`. -/
def applyEv (reg : List Nat) : Ev → List Nat
  | Ev.connect i => addClient reg i
  | Ev.disconnect i => removeClient reg i

/-- Run a trace of events against the registry. -/
def runEvents (reg : List Nat) : List Ev → List Nat
  | [] => reg
  | e :: evs => runEvents (applyEv reg e) evs

/-- Well-formedness of a trace, with `C` the identities that have ever
connected: every accepted transport carries a fresh identity (FastAPI
hands each accepted connection a new `WebSocket` object), and a
disconnect only ever concerns a previously accepted connection. -/
def wfTrace : List Nat → List Ev → Bool
  | _, [] => true
  | C, Ev.connect i :: evs => decide (i ∉ C) && wfTrace (i :: C) evs
  | C, Ev.disconnect i :: evs => decide (i ∈ C) && wfTrace C evs

/-! ## Helper lemmas -/

/-- When no send fails, the chat fan-out loop leaves the registry alone and
delivers, in order, to every entry from the iterator position on except the
sender. -/
theorem chatLoop_no_fail (sender : Nat) (fails : Nat → Bool) :
    ∀ (fuel : Nat) (lst : List Nat) (i : Nat) (d : List Nat),
      (∀ c ∈ lst, fails c = false) → lst.length - i ≤ fuel →
      chatLoop sender fails fuel lst i d =
        (lst, d ++ (lst.drop i).filter fun c => decide (c ≠ sender)) := by
  intro fuel
  induction fuel with
  | zero =>
    intro lst i d hf hn
    have hle : lst.length ≤ i := by omega
    rw [List.drop_eq_nil_of_le hle]
    simp [chatLoop]
  | succ fuel ih =>
    intro lst i d hf hn
    by_cases h : i < lst.length
    · have hmem : lst[i] ∈ lst := List.getElem_mem h
      rw [List.drop_eq_getElem_cons h, List.filter_cons]
      simp only [chatLoop]
      rw [dif_pos h]
      by_cases hc : lst[i] = sender
      · rw [if_pos hc, ih lst (i + 1) d hf (by omega)]
        have hd : decide (lst[i] ≠ sender) = false := by simp [hc]
        rw [hd]
        simp
      · rw [if_neg hc, hf _ hmem]
        simp only [Bool.false_eq_true, if_false]
        rw [ih lst (i + 1) (d ++ [lst[i]]) hf (by omega)]
        have hd : decide (lst[i] ≠ sender) = true := by simp [hc]
        rw [hd]
        simp
    · have hle : lst.length ≤ i := by omega
      rw [List.drop_eq_nil_of_le hle]
      simp only [chatLoop]
      rw [dif_neg h]
      simp

/-- When no send fails, a chat broadcast keeps the registry and delivers to
exactly the non-sender entries, in registry order. -/
theorem chatFanout_no_fail (sender : Nat) (fails : Nat → Bool) (clients : List Nat)
    (hf : ∀ c ∈ clients, fails c = false) :
    chatFanout sender fails clients =
      (clients, clients.filter fun c => decide (c ≠ sender)) := by
  unfold chatFanout
  rw [chatLoop_no_fail sender fails clients.length clients 0 [] hf (by omega)]
  simp

/-- Removing the one occurrence of a member from a duplicate-free list
shortens it by exactly one. -/
theorem length_filter_ne :
    ∀ (l : List Nat) (a : Nat), l.Nodup → a ∈ l →
      (l.filter fun c => decide (c ≠ a)).length = l.length - 1 := by
  intro l
  induction l with
  | nil => intro a _ ha; cases ha
  | cons b t ih =>
    intro a hnd ha
    rw [List.filter_cons]
    rcases List.mem_cons.mp ha with hb | ht
    · subst hb
      have hbt : a ∉ t := (List.nodup_cons.mp hnd).1
      have hfe : t.filter (fun c => decide (c ≠ a)) = t :=
        List.filter_eq_self.mpr (fun c hc => by
          simp only [decide_eq_true_eq]
          intro e
          exact hbt (e ▸ hc))
      have hda : decide (a ≠ a) = false := by simp
      rw [hda]
      simp only [Bool.false_eq_true, if_false, hfe, List.length_cons]
      omega
    · have hba : b ≠ a := by
        intro e
        subst e
        exact (List.nodup_cons.mp hnd).1 ht
      have h1 : decide (b ≠ a) = true := by simp [hba]
      rw [h1]
      have h2 := ih a (List.nodup_cons.mp hnd).2 ht
      have h3 : 0 < t.length := List.length_pos_of_mem ht
      simp only [if_true, List.length_cons, h2]
      omega

/-- In a well-formed trace, an identity that has already connected never
connects again. -/
theorem wfTrace_connect_not_mem :
    ∀ (evs : List Ev) (C : List Nat) (j : Nat),
      wfTrace C evs = true → j ∈ C → Ev.connect j ∉ evs := by
  intro evs
  induction evs with
  | nil => intro C j _ _ hmem; cases hmem
  | cons e evs ih =>
    intro C j hwf hj hmem
    cases e with
    | connect i =>
      simp only [wfTrace, Bool.and_eq_true, decide_eq_true_eq] at hwf
      rcases List.mem_cons.mp hmem with he | he
      · have hij : j = i := by injection he
        subst hij
        exact hwf.1 hj
      · exact ih (i :: C) j hwf.2 (List.mem_cons_of_mem _ hj) he
    | disconnect i =>
      simp only [wfTrace, Bool.and_eq_true, decide_eq_true_eq] at hwf
      rcases List.mem_cons.mp hmem with he | he
      · exact Ev.noConfusion he
      · exact ih C j hwf.2 hj he

/-- Running a well-formed trace against a duplicate-free registry whose
members have all connected keeps the registry duplicate-free, and an
identity is a member afterwards exactly when it was a member before or
connected during the trace, and did not disconnect during the trace. -/
theorem runEvents_spec :
    ∀ (evs : List Ev) (C reg : List Nat),
      reg.Nodup → (∀ i ∈ reg, i ∈ C) → wfTrace C evs = true →
      (runEvents reg evs).Nodup ∧
      ∀ i : Nat, i ∈ runEvents reg evs ↔
        ((i ∈ reg ∨ Ev.connect i ∈ evs) ∧ Ev.disconnect i ∉ evs) := by
  intro evs
  induction evs with
  | nil =>
    intro C reg hnd _ _
    refine ⟨hnd, fun i => ?_⟩
    simp [runEvents]
  | cons e evs ih =>
    intro C reg hnd hsub hwf
    cases e with
    | connect j =>
      simp only [wfTrace, Bool.and_eq_true, decide_eq_true_eq] at hwf
      obtain ⟨hjC, hwf⟩ := hwf
      have hjreg : j ∉ reg := fun h => hjC (hsub j h)
      have hnd' : (addClient reg j).Nodup := by
        unfold addClient
        rw [List.nodup_append]
        refine ⟨hnd, List.nodup_singleton j, ?_⟩
        intro a ha hb
        simp only [List.mem_singleton] at hb
        subst hb
        exact hjreg ha
      have hsub' : ∀ i ∈ addClient reg j, i ∈ j :: C := by
        intro i hi
        unfold addClient at hi
        rcases List.mem_append.mp hi with h | h
        · exact List.mem_cons_of_mem _ (hsub i h)
        · simp only [List.mem_singleton] at h
          subst h
          exact List.mem_cons_self _ _
      have hmain := ih (j :: C) (addClient reg j) hnd' hsub' hwf
      have hrun : runEvents reg (Ev.connect j :: evs) = runEvents (addClient reg j) evs := rfl
      refine ⟨hrun ▸ hmain.1, fun i => ?_⟩
      rw [hrun, hmain.2 i]
      constructor
      · rintro ⟨h1, h2⟩
        refine ⟨?_, fun hc => ?_⟩
        · rcases h1 with h1 | h1
          · unfold addClient at h1
            rcases List.mem_append.mp h1 with h | h
            · exact Or.inl h
            · simp only [List.mem_singleton] at h
              subst h
              exact Or.inr (List.mem_cons_self _ _)
          · exact Or.inr (List.mem_cons_of_mem _ h1)
        · rcases List.mem_cons.mp hc with hc | hc
          · exact Ev.noConfusion hc
          · exact h2 hc
      · rintro ⟨h1, h2⟩
        have h2' : Ev.disconnect i ∉ evs := fun hc => h2 (List.mem_cons_of_mem _ hc)
        refine ⟨?_, h2'⟩
        rcases h1 with h1 | h1
        · exact Or.inl (by unfold addClient; exact List.mem_append.mpr (Or.inl h1))
        · rcases List.mem_cons.mp h1 with hc | hc
          · have hij : i = j := by injection hc
            subst hij
            exact Or.inl (by unfold addClient; simp)
          · exact Or.inr hc
    | disconnect j =>
      simp only [wfTrace, Bool.and_eq_true, decide_eq_true_eq] at hwf
      obtain ⟨hjC, hwf⟩ := hwf
      have hnd' : (removeClient reg j).Nodup := by
        unfold removeClient
        split
        · exact hnd.erase j
        · exact hnd
      have hsub' : ∀ i ∈ removeClient reg j, i ∈ C := by
        intro i hi
        unfold removeClient at hi
        split at hi
        · exact hsub i (List.mem_of_mem_erase hi)
        · exact hsub i hi
      have hcon : Ev.connect j ∉ evs := wfTrace_connect_not_mem evs C j hwf hjC
      have hrm : ∀ i : Nat, i ∈ removeClient reg j ↔ (i ∈ reg ∧ i ≠ j) := by
        intro i
        unfold removeClient
        split
        · rw [hnd.mem_erase_iff]
          tauto
        · rename_i hj
          exact ⟨fun h => ⟨h, fun e => hj (e ▸ h)⟩, fun h => h.1⟩
      have hmain := ih C (removeClient reg j) hnd' hsub' hwf
      have hrun : runEvents reg (Ev.disconnect j :: evs) = runEvents (removeClient reg j) evs := rfl
      refine ⟨hrun ▸ hmain.1, fun i => ?_⟩
      rw [hrun, hmain.2 i, hrm i]
      constructor
      · rintro ⟨h1, h2⟩
        refine ⟨?_, fun hc => ?_⟩
        · rcases h1 with ⟨h1, _⟩ | h1
          · exact Or.inl h1
          · exact Or.inr (List.mem_cons_of_mem _ h1)
        · rcases List.mem_cons.mp hc with hc | hc
          · have hij : i = j := by injection hc
            subst hij
            rcases h1 with ⟨_, hne⟩ | h1
            · exact hne rfl
            · exact hcon h1
          · exact h2 hc
      · rintro ⟨h1, h2⟩
        have hne : i ≠ j := fun e => h2 (by rw [e]; exact List.mem_cons_self _ _)
        have h2' : Ev.disconnect i ∉ evs := fun hc => h2 (List.mem_cons_of_mem _ hc)
        refine ⟨?_, h2'⟩
        rcases h1 with h1 | h1
        · exact Or.inl ⟨h1, hne⟩
        · rcases List.mem_cons.mp h1 with hc | hc
          · exact Ev.noConfusion hc
          · exact Or.inr hc

/-! ## Claim theorems -/

/-- C1: a non-command inbound message `m` from `sender`, with the live
connections all reachable, is broadcast as `User ➤ m` to exactly the
`N − 1` connections other than the sender; the sender never receives its
own message and the registry is unchanged. -/
theorem chat_broadcast_excludes_sender
    (sender : Nat) (clients : List Nat) (fails : Nat → Bool) (randVal : Nat)
    (m : String)
    (hcmd : pyStartsWith (pyLower (pyStrip m)) "/device" = false)
    (hnd : clients.Nodup) (hs : sender ∈ clients)
    (hf : ∀ c ∈ clients, fails c = false) :
    (sessionStep sender clients fails randVal m).2.map Prod.fst
        = clients.filter (fun c => decide (c ≠ sender)) ∧
    (∀ p ∈ (sessionStep sender clients fails randVal m).2, p.2 = "User ➤ " ++ m) ∧
    (∀ p ∈ (sessionStep sender clients fails randVal m).2, p.1 ≠ sender) ∧
    (∀ c ∈ clients, c ≠ sender →
      (c, "User ➤ " ++ m) ∈ (sessionStep sender clients fails randVal m).2) ∧
    (sessionStep sender clients fails randVal m).2.length = clients.length - 1 ∧
    (sessionStep sender clients fails randVal m).1 = clients := by
  have hfan := chatFanout_no_fail sender fails clients hf
  have hsess : sessionStep sender clients fails randVal m =
      (clients, (clients.filter fun c => decide (c ≠ sender)).map
        fun c => (c, "User ➤ " ++ m)) := by
    unfold sessionStep
    rw [hcmd]
    simp [hfan]
  rw [hsess]
  refine ⟨?_, ?_, ?_, ?_, ?_, rfl⟩
  · rw [List.map_map]
    have hid : (Prod.fst ∘ fun c : Nat => (c, "User ➤ " ++ m)) = id := rfl
    rw [hid, List.map_id]
  · intro p hp
    simp only [List.mem_map] at hp
    obtain ⟨c, _, rfl⟩ := hp
    rfl
  · intro p hp
    simp only [List.mem_map] at hp
    obtain ⟨c, hc, rfl⟩ := hp
    have := (List.mem_filter.mp hc).2
    simpa using this
  · intro c hc hne
    exact List.mem_map.mpr ⟨c, List.mem_filter.mpr ⟨hc, by simpa using hne⟩, rfl⟩
  · rw [List.length_map]
    exact length_filter_ne clients sender hnd hs

/-- Witness for `chat_broadcast_excludes_sender`: sender `0` among live
connections `[0, 1, 2]` broadcasting `"hello"` — delivered to `1` and `2`
only. -/
theorem chat_broadcast_excludes_sender_witness :
    (sessionStep 0 [0, 1, 2] (fun _ => false) 0 "hello").2.map Prod.fst
        = ([0, 1, 2].filter (fun c => decide (c ≠ 0))) ∧
    (∀ p ∈ (sessionStep 0 [0, 1, 2] (fun _ => false) 0 "hello").2,
      p.2 = "User ➤ " ++ "hello") ∧
    (∀ p ∈ (sessionStep 0 [0, 1, 2] (fun _ => false) 0 "hello").2, p.1 ≠ 0) ∧
    (∀ c ∈ [0, 1, 2], c ≠ 0 →
      (c, "User ➤ " ++ "hello") ∈ (sessionStep 0 [0, 1, 2] (fun _ => false) 0 "hello").2) ∧
    (sessionStep 0 [0, 1, 2] (fun _ => false) 0 "hello").2.length = [0, 1, 2].length - 1 ∧
    (sessionStep 0 [0, 1, 2] (fun _ => false) 0 "hello").1 = [0, 1, 2] :=
  chat_broadcast_excludes_sender 0 [0, 1, 2] (fun _ => false) 0 "hello"
    (by decide) (by decide) (by decide) (by decide)

/-- C2: an inbound message that, case-insensitively trimmed, starts with
`/device` is answered by sending `Device ➤ r` to the originating
connection only, where `r` is the responder dispatch applied to the
message with the prefix stripped and the remainder trimmed and
lowercased; no other connection receives anything and the registry is
untouched. -/
theorem device_reply_only_to_sender
    (sender : Nat) (clients : List Nat) (fails : Nat → Bool) (randVal : Nat)
    (data : String)
    (hcmd : pyStartsWith (pyLower (pyStrip data)) "/device" = true) :
    sessionStep sender clients fails randVal data =
      (clients, [(sender, "Device ➤ " ++
        DeviceSimulator.dispatch (pyLower (pyStrip (pyDrop (pyStrip data) 7))) randVal)]) ∧
    ∀ p ∈ (sessionStep sender clients fails randVal data).2, p.1 = sender := by
  have hhc : DeviceSimulator.handle_command data randVal =
      DeviceSimulator.dispatch (pyLower (pyStrip (pyDrop (pyStrip data) 7))) randVal := by
    simp only [DeviceSimulator.handle_command, DeviceSimulator.dispatch, hcmd, if_true]
  have hsess : sessionStep sender clients fails randVal data =
      (clients, [(sender, "Device ➤ " ++
        DeviceSimulator.dispatch (pyLower (pyStrip (pyDrop (pyStrip data) 7))) randVal)]) := by
    unfold sessionStep
    rw [hcmd]
    simp [hhc]
  refine ⟨hsess, ?_⟩
  rw [hsess]
  intro p hp
  simp only [List.mem_singleton] at hp
  subst hp
  rfl

/-- Witness for `device_reply_only_to_sender`: `/device start` from sender
`0` with `[0, 1]` connected is answered to `0` alone. -/
theorem device_reply_only_to_sender_witness :
    sessionStep 0 [0, 1] (fun _ => false) 7 "/device start" =
      ([0, 1], [(0, "Device ➤ " ++
        DeviceSimulator.dispatch (pyLower (pyStrip (pyDrop (pyStrip "/device start") 7))) 7)]) ∧
    ∀ p ∈ (sessionStep 0 [0, 1] (fun _ => false) 7 "/device start").2, p.1 = 0 :=
  device_reply_only_to_sender 0 [0, 1] (fun _ => false) 7 "/device start" (by decide)

/-- C3 (failing run): with live connections `[0, 1, 2, 3]` and sender `0`
broadcasting while the send to `1` raises `WebSocketDisconnect`, the code
removes exactly `1` but then skips snapshot member `2`: only `3`
receives the message although `2` stays registered and reachable. -/
theorem chat_fanout_skips_after_failed_send :
    chatFanout 0 (fun c => c == 1) [0, 1, 2, 3] = ([0, 2, 3], [3]) ∧
    2 ∉ (chatFanout 0 (fun c => c == 1) [0, 1, 2, 3]).2 ∧
    2 ∈ (chatFanout 0 (fun c => c == 1) [0, 1, 2, 3]).1 := by
  decide

/-- C4 (failing run): the chat fan-out does not iterate an independent
snapshot.  With registry `[10, 11, 12]`, sender `10`, and the send to
`11` failing, the chat loop delivers to nobody — `12` is skipped even
though it is present for the whole call — whereas the snapshot-iterating
sensor loop on the same registry and failure pattern delivers to `12`. -/
theorem chat_fanout_not_snapshot_iteration :
    chatFanout 10 (fun c => c == 11) [10, 11, 12] = ([10, 12], []) ∧
    device_sensor_broadcast (fun c => c == 11) [10, 11, 12] = ([10, 12], [10, 12]) ∧
    12 ∉ (chatFanout 10 (fun c => c == 11) [10, 11, 12]).2 ∧
    12 ∈ (device_sensor_broadcast (fun c => c == 11) [10, 11, 12]).2 := by
  decide

/-- C5: after any well-formed sequence of connect/disconnect events the
registry holds exactly the identities that connected and did not
disconnect — no leaked entries, no phantom entries, no duplicates. -/
theorem registry_membership_exact (evs : List Ev)
    (hwf : wfTrace [] evs = true) :
    (runEvents [] evs).Nodup ∧
    ∀ i : Nat, i ∈ runEvents [] evs ↔
      (Ev.connect i ∈ evs ∧ Ev.disconnect i ∉ evs) := by
  have h := runEvents_spec evs [] [] List.nodup_nil (by intro i hi; cases hi) hwf
  refine ⟨h.1, fun i => ?_⟩
  rw [h.2 i]
  constructor
  · rintro ⟨h1 | h1, h2⟩
    · cases h1
    · exact ⟨h1, h2⟩
  · rintro ⟨h1, h2⟩
    exact ⟨Or.inr h1, h2⟩

/-- Witness for `registry_membership_exact`: connect `1`, connect `2`,
disconnect `1`. -/
theorem registry_membership_exact_witness :
    (runEvents [] [Ev.connect 1, Ev.connect 2, Ev.disconnect 1]).Nodup ∧
    ∀ i : Nat, i ∈ runEvents [] [Ev.connect 1, Ev.connect 2, Ev.disconnect 1] ↔
      (Ev.connect i ∈ [Ev.connect 1, Ev.connect 2, Ev.disconnect 1] ∧
       Ev.disconnect i ∉ [Ev.connect 1, Ev.connect 2, Ev.disconnect 1]) :=
  registry_membership_exact [Ev.connect 1, Ev.connect 2, Ev.disconnect 1] (by decide)

/-- C6 (counterexample): adding connection `5` to a registry already
containing `5` is not rejected — no error is signalled and the registry
ends with `5` twice. -/
theorem add_duplicate_not_rejected :
    addClient [5] 5 = [5, 5] ∧ (addClient [5] 5).count 5 = 2 ∧ addClient [5] 5 ≠ [5] := by
  decide

/-- C6 (amended): registration is an unconditional `list.append`; adding
an already-present connection inserts a second entry (the registry then
holds it at least twice) and no `DuplicateIdentity` rejection exists.
The operation is total, so it never crashes the process. -/
theorem add_duplicate_inserts_second_entry (reg : List Nat) (c : Nat)
    (h : c ∈ reg) : 2 ≤ (addClient reg c).count c := by
  unfold addClient
  rw [List.count_append]
  have h1 : 0 < reg.count c := List.count_pos_iff.mpr h
  have h2 : ([c] : List Nat).count c = 1 := by simp
  omega

/-- Witness for `add_duplicate_inserts_second_entry`: re-adding `7` to
`[7]`. -/
theorem add_duplicate_inserts_second_entry_witness :
    2 ≤ (addClient [7] 7).count 7 :=
  add_duplicate_inserts_second_entry [7] 7 (by decide)

/-- C7: the responder returns, for `status`, a string exhibiting the drawn
integer, which lies in `[0, 100]`; exactly `"Device has been started."`
for `start`; exactly `"Device has been stopped."` for `stop`; the usage
hint for empty input; and for `foo` an unknown-command message in which
`foo` appears. -/
theorem responder_command_responses (randVal : Nat) (h : randVal ≤ 100) :
    (∃ v, v ≤ 100 ∧ DeviceSimulator.handle_command "status" randVal =
        "Current sensor reading is " ++ toString v ++ ".") ∧
    DeviceSimulator.handle_command "start" randVal = "Device has been started." ∧
    DeviceSimulator.handle_command "stop" randVal = "Device has been stopped." ∧
    DeviceSimulator.handle_command "" randVal = "No command provided. Try '/device status'." ∧
    DeviceSimulator.handle_command "foo" randVal = "Unknown device command: '" ++ "foo" ++ "'." ∧
    strContains (DeviceSimulator.handle_command "foo" randVal) "foo" = true := by
  refine ⟨⟨randVal, h, rfl⟩, rfl, rfl, rfl, rfl, ?_⟩
  have hfoo : DeviceSimulator.handle_command "foo" randVal =
      "Unknown device command: 'foo'." := rfl
  rw [hfoo]
  decide

/-- Witness for `responder_command_responses`: the draw `42`. -/
theorem responder_command_responses_witness :
    (∃ v, v ≤ 100 ∧ DeviceSimulator.handle_command "status" 42 =
        "Current sensor reading is " ++ toString v ++ ".") ∧
    DeviceSimulator.handle_command "start" 42 = "Device has been started." ∧
    DeviceSimulator.handle_command "stop" 42 = "Device has been stopped." ∧
    DeviceSimulator.handle_command "" 42 = "No command provided. Try '/device status'." ∧
    DeviceSimulator.handle_command "foo" 42 = "Unknown device command: '" ++ "foo" ++ "'." ∧
    strContains (DeviceSimulator.handle_command "foo" 42) "foo" = true :=
  responder_command_responses 42 (by decide)

/-- C8 (counterexample): the unrecognised text is echoed lowercased, not
as the user wrote it — `/device Foo` produces
`Unknown device command: 'foo'.`, in which `Foo` does not appear. -/
theorem unknown_echo_lowercases :
    DeviceSimulator.handle_command "/device Foo" 0 = "Unknown device command: 'foo'." ∧
    strContains (DeviceSimulator.handle_command "/device Foo" 0) "Foo" = false := by
  decide

/-- C8 (amended): for every input whose normalised form (strip, drop one
`/device` prefix, strip again, lowercase) is none of
`status`/`start`/`stop` and not empty, the responder returns the
unknown-command message echoing that normalised — hence lowercased —
text. -/
theorem unknown_echo_normalized_text (t : String) (randVal : Nat)
    (h1 : DeviceSimulator.normalize t ≠ "status")
    (h2 : DeviceSimulator.normalize t ≠ "start")
    (h3 : DeviceSimulator.normalize t ≠ "stop")
    (h4 : DeviceSimulator.normalize t ≠ "") :
    DeviceSimulator.handle_command t randVal =
      "Unknown device command: '" ++ DeviceSimulator.normalize t ++ "'." := by
  have he : DeviceSimulator.handle_command t randVal =
      DeviceSimulator.dispatch (DeviceSimulator.normalize t) randVal := rfl
  rw [he]
  unfold DeviceSimulator.dispatch
  rw [if_neg h1, if_neg h2, if_neg h3, if_neg h4]

/-- Witness for `unknown_echo_normalized_text`: the input `/device Foo`. -/
theorem unknown_echo_normalized_text_witness :
    DeviceSimulator.handle_command "/device Foo" 0 =
      "Unknown device command: '" ++ DeviceSimulator.normalize "/device Foo" ++ "'." :=
  unknown_echo_normalized_text "/device Foo" 0 (by decide) (by decide) (by decide) (by decide)

/-- C9 (counterexample): `handle_command` is not a pure function of its
input string — two `status` calls with the same text but different
global-RNG draws return different responses. -/
theorem responder_depends_on_rng :
    DeviceSimulator.handle_command "status" 0 ≠ DeviceSimulator.handle_command "status" 1 := by
  decide

/-- C9 (amended): `handle_command` keeps no state of its own — the
response is a function of the input text and the RNG draw alone — and on
every input that does not normalise to `status` the draw is irrelevant,
so any two calls with the same text agree. -/
theorem responder_deterministic_given_rng (t : String) (r1 r2 : Nat)
    (h : DeviceSimulator.normalize t ≠ "status") :
    DeviceSimulator.handle_command t r1 = DeviceSimulator.handle_command t r2 := by
  have he1 : DeviceSimulator.handle_command t r1 =
      DeviceSimulator.dispatch (DeviceSimulator.normalize t) r1 := rfl
  have he2 : DeviceSimulator.handle_command t r2 =
      DeviceSimulator.dispatch (DeviceSimulator.normalize t) r2 := rfl
  rw [he1, he2]
  unfold DeviceSimulator.dispatch
  rw [if_neg h, if_neg h]

/-- Witness for `responder_deterministic_given_rng`: `start` under the
draws `0` and `99`. -/
theorem responder_deterministic_given_rng_witness :
    DeviceSimulator.handle_command "start" 0 = DeviceSimulator.handle_command "start" 99 :=
  responder_deterministic_given_rng "start" 0 99 (by decide)

/-- C10: `handle_command` strips one leading `/device` prefix at most once
and lowercases the whole remainder before dispatching — the response is
always `dispatch` of `normalize` of the input — so sub-command matching
is case-insensitive (`/DEVICE START` starts the device) and a remainder
that itself begins with `/device` is not re-parsed but reported
unknown. -/
theorem responder_normalization_once (randVal : Nat) :
    (∀ s : String, DeviceSimulator.handle_command s randVal =
      DeviceSimulator.dispatch (DeviceSimulator.normalize s) randVal) ∧
    DeviceSimulator.handle_command "/DEVICE START" randVal = "Device has been started." ∧
    DeviceSimulator.handle_command "/device start" randVal = "Device has been started." ∧
    DeviceSimulator.handle_command "/device /device status" randVal =
      "Unknown device command: '/device status'." :=
  ⟨fun _ => rfl, rfl, rfl, rfl⟩
